import Mathlib

/-!
Shallow embedding of the subscription / tenancy / RBAC / payment core of the
Saas_CRM_HRM Django application (files under `saas/`), together with theorems
settling the frozen claims about it.

Conventions of the embedding:
* Python `datetime.datetime` values are modelled as integer timestamps (seconds),
  Python `datetime.date` values as integer day numbers; `.date()` on a datetime
  is integer division by 86400.  Python refuses to order-compare a `date`
  against a `datetime` (`TypeError`), which the embedding models explicitly.
* Django rows are Lean structures; the database is a structure of lists of rows.
* Fallible Python code (uncaught exceptions, `get_object_or_404`, integrity
  errors from `unique=True` columns) is modelled with `Except PyErr`.
* `DecimalField` values are modelled as rationals (`ℚ`); `Decimal` arithmetic on
  the quantities appearing here (multiplication by 100, division of an integer
  by 100) is exact, as is the rational arithmetic modelling it.
-/

/-- Python-level failures that the embedded code can raise. -/
inductive PyErr where
  | typeError
  | attributeError
  | doesNotExist
  | multipleObjectsReturned
  | http404
  | integrityError
  | fuelExhausted
  deriving Repr, DecidableEq

/-- A Python time value: either a `datetime.datetime` (timestamp in seconds)
or a `datetime.date` (day number). -/
inductive TimeVal where
  | dt (t : Int)
  | date (d : Int)
  deriving Repr, DecidableEq

/-- Python `>` on two time values.  Comparing a `date` with a `datetime`
raises `TypeError` (CPython refuses mixed date/datetime order comparison). -/
def TimeVal.pyGt : TimeVal → TimeVal → Except PyErr Bool
  | .dt a, .dt b => .ok (decide (a > b))
  | .date a, .date b => .ok (decide (a > b))
  | _, _ => .error .typeError

/-- `datetime.date()` of a timestamp: the containing day number. -/
def dtToDate (t : Int) : Int := t / 86400

/-- Row of the `tenants` table (model `Tenant`, saas/models/tenant.py).
`slug` is a nullable column, `domain` a non-null string column. -/
structure Tenant where
  id : Nat
  name : String
  domain : String
  status : String
  slug : Option String
  subscription_plan : Option Nat
  razorpay_payment_id : Option String
  razorpay_order_id : Option String
  subscription_start_date : Option Int
  subscription_end_date : Option Int
  contact_email : Option String
  deriving Repr, DecidableEq

/-- `Tenant.is_subscription_active` (saas/models/tenant.py):
returns False when `status != 'active'`; returns False when
`subscription_end_date` is set (a datetime is always truthy) and
`timezone.now() > subscription_end_date`; otherwise True. -/
def Tenant.is_subscription_active (t : Tenant) (now : Int) : Bool :=
  if t.status ≠ "active" then false
  else
    match t.subscription_end_date with
    | some e => if now > e then false else true
    | none => true

/-- C1: `Tenant.is_subscription_active` is True iff `status = 'active'` and
`subscription_end_date` is null or not strictly earlier than the current time;
and the result reads only the `status` and `subscription_end_date` fields
(two tenants agreeing on those two fields get the same answer). -/
theorem C1_is_subscription_active (t u : Tenant) (now : Int)
    (hstatus : u.status = t.status)
    (hend : u.subscription_end_date = t.subscription_end_date) :
    (t.is_subscription_active now = true ↔
      (t.status = "active" ∧
        (t.subscription_end_date = none ∨
          ∃ e, t.subscription_end_date = some e ∧ ¬ e < now))) ∧
    u.is_subscription_active now = t.is_subscription_active now := by
  constructor
  · unfold Tenant.is_subscription_active
    rcases h : t.subscription_end_date with _ | e
    · by_cases hs : t.status = "active" <;> simp [hs]
    · by_cases hs : t.status = "active" <;>
        by_cases hlt : now > e <;>
        simp [hs, hlt] <;> omega
  · unfold Tenant.is_subscription_active
    rw [hstatus, hend]

/-- Sample tenant used in witnesses: active with an end date. -/
def sampleTenantA : Tenant :=
  { id := 1, name := "Acme", domain := "acme.myapp.com", status := "active",
    slug := some "acme", subscription_plan := none,
    razorpay_payment_id := none, razorpay_order_id := none,
    subscription_start_date := none, subscription_end_date := some 100,
    contact_email := none }

/-- Sample tenant used in witnesses: same status and end date as
`sampleTenantA`, every other field different. -/
def sampleTenantB : Tenant :=
  { id := 2, name := "Other", domain := "other.myapp.com", status := "active",
    slug := none, subscription_plan := some 7,
    razorpay_payment_id := some "pay", razorpay_order_id := none,
    subscription_start_date := some 0, subscription_end_date := some 100,
    contact_email := some "a@b.c" }

/-- Witness for C1 at a concrete tenant and time. -/
theorem C1_is_subscription_active_witness :
    (sampleTenantA.is_subscription_active 50 = true ↔
      (sampleTenantA.status = "active" ∧
        (sampleTenantA.subscription_end_date = none ∨
          ∃ e, sampleTenantA.subscription_end_date = some e ∧ ¬ e < 50))) ∧
    sampleTenantB.is_subscription_active 50 =
      sampleTenantA.is_subscription_active 50 :=
  C1_is_subscription_active sampleTenantA sampleTenantB 50 rfl rfl

/-- Row of the `plans` table (model `Plan`, saas/models/plan.py).  The model
has no `features` column and no relation named `features`; its feature links
live in the separate `plan_features` table. -/
structure Plan where
  id : Nat
  name : String
  price_monthly : ℚ
  price_yearly : ℚ
  max_users : Int
  status : Bool
  plan_type : String
  deriving Repr, DecidableEq

/-- Row of the `company_subscriptions` table (model `CompanySubscription`,
saas/models/company_subscription.py).  `start_date`/`end_date` are nullable
`DateTimeField`s, modelled as timestamps. -/
structure CompanySubscription where
  id : Nat
  tenant : Nat
  plan : Nat
  status : String
  start_date : Option Int
  end_date : Option Int
  created_at : Int
  deriving Repr, DecidableEq

/-- Row of the `subscriptions` table (model `Subscription`,
saas/models/subscription.py).  `start_date`/`end_date` are non-null
`DateField`s, modelled as day numbers. -/
structure Subscription where
  id : Nat
  tenant : Nat
  plan : Nat
  start_date : Int
  end_date : Int
  billing_cycle : String
  amount : ℚ
  status : String
  created_at : Int
  deriving Repr, DecidableEq

/-- Row of the `payment_transactions` table (model `PaymentTransaction`,
saas/models/payment_transaction.py).  `tenant` and `plan` are nullable
foreign keys; `razorpay_order_id` is a unique column. -/
structure PaymentTransaction where
  id : Nat
  tenant : Option Nat
  plan : Option Nat
  razorpay_order_id : String
  razorpay_payment_id : Option String
  razorpay_signature : Option String
  amount : ℚ
  currency : String
  billing_cycle : String
  status : String
  created_at : Int
  deriving Repr, DecidableEq

/-- Row of the `invoices` table (model `Invoice`, saas/models/invoice.py),
restricted to the fields the payment views touch plus `total_amount`.
`total_amount` is declared `DecimalField(max_digits=12, decimal_places=2)`
with neither `null=True` nor a default: the column is NOT NULL, and `none`
here models the attribute a `create()` call left unset, which the database
rejects on insert. -/
structure Invoice where
  id : Nat
  tenant : Nat
  subscription : Option Nat
  invoice_number : String
  amount : ℚ
  total_amount : Option ℚ
  due_date : Option Int
  status : String
  deriving Repr, DecidableEq

/-- Row of the `permissions` table (model `Permission`,
saas/models/permission.py). -/
structure Permission where
  id : Nat
  codename : String
  is_active : Bool
  deriving Repr, DecidableEq

/-- Row of the `role_permissions` table (model `RolePermission`,
saas/models/rolepermission.py).  The row has its own `is_active` flag, which
`Role.has_permission` does not consult. -/
structure RolePermission where
  id : Nat
  role : Nat
  permission : Nat
  is_active : Bool
  deriving Repr, DecidableEq

/-- Row of the `roles` table (model `Role`, saas/models/role.py), restricted
to the fields the embedded operations read. -/
structure Role where
  id : Nat
  name : String
  is_active : Bool
  deriving Repr, DecidableEq

/-- Row of the `custom_users` table (model `CustomUser`,
saas/models/user.py).  `is_authenticated` captures the Django request-user
flag (False models `AnonymousUser`). -/
structure CustomUser where
  id : Nat
  email : String
  is_superuser : Bool
  is_staff : Bool
  is_authenticated : Bool
  role : Option Nat
  tenant : Option Nat
  deriving Repr, DecidableEq

/-- The database state: one list of rows per table the claims touch. -/
structure DB where
  tenants : List Tenant
  plans : List Plan
  companySubs : List CompanySubscription
  subscriptions : List Subscription
  transactions : List PaymentTransaction
  invoices : List Invoice
  permissions : List Permission
  rolePerms : List RolePermission
  roles : List Role
  deriving Repr, DecidableEq

/-- `Role.has_permission` (saas/models/role.py): true iff the
`role_permissions` table has a row for this role whose permission has the
given codename and `is_active=True` (the filter is on the permission's flag,
not the link row's). -/
def Role.has_permission (db : DB) (roleId : Nat) (codename : String) : Bool :=
  db.rolePerms.any fun rp =>
    rp.role == roleId &&
      db.permissions.any fun p =>
        p.id == rp.permission && p.codename == codename && p.is_active

/-- `CustomUser.has_permission` (saas/models/user.py): superusers and staff
always pass; a user without a role fails; otherwise defer to
`Role.has_permission`. -/
def CustomUser.has_permission (db : DB) (u : CustomUser) (codename : String) : Bool :=
  if u.is_superuser || u.is_staff then true
  else
    match u.role with
    | none => false
    | some r => Role.has_permission db r codename

/-- C2: `CustomUser.has_permission` returns True when the user is superuser
or staff; otherwise False when the user has no role; otherwise True iff the
role-permission table links the user's role to an active permission with the
given codename. -/
theorem C2_has_permission (db : DB) (u : CustomUser) (codename : String) :
    CustomUser.has_permission db u codename = true ↔
      ((u.is_superuser = true ∨ u.is_staff = true) ∨
        ∃ r, u.role = some r ∧
          ∃ rp ∈ db.rolePerms, rp.role = r ∧
            ∃ p ∈ db.permissions, p.id = rp.permission ∧
              p.codename = codename ∧ p.is_active = true) := by
  unfold CustomUser.has_permission Role.has_permission
  by_cases hsu : u.is_superuser <;> by_cases hst : u.is_staff <;>
    rcases hr : u.role with _ | r <;>
      simp [hsu, hst, hr, List.any_eq_true, and_assoc]

/-- `.order_by('-created_at').first()` on a filtered queryset: the row with
the greatest `created_at` (ties resolved to the earlier row in the list,
mirroring an unspecified database order). -/
def firstByNewest (createdAt : α → Int) (l : List α) : Option α :=
  l.foldl
    (fun acc x =>
      match acc with
      | none => some x
      | some y => if createdAt x > createdAt y then some x else some y)
    none

/-- Python `str.startswith`, computed on the character lists. -/
def pyStartsWith (s p : String) : Bool :=
  p.data.isPrefixOf s.data

/-- Result triple of `check_subscription_access` (saas/utils.py):
`(has_access, message, redirect_url)`. -/
structure AccessCheck where
  has_access : Bool
  message : Option String
  redirect_url : Option String
  deriving Repr, DecidableEq

/-- Replace the company-subscription row with the given id. -/
def DB.setCompanySub (db : DB) (s : CompanySubscription) : DB :=
  { db with companySubs := db.companySubs.map fun x => if x.id == s.id then s else x }

/-- Replace the billing-subscription row with the given id. -/
def DB.setSubscription (db : DB) (s : Subscription) : DB :=
  { db with subscriptions := db.subscriptions.map fun x => if x.id == s.id then s else x }

/-- `check_subscription_access` (saas/utils.py).  Superusers/staff pass;
users without a tenant are refused; the newest `CompanySubscription` of the
tenant with status `'active'` is fetched through the `tenant.subscriptions`
relation; with no such row the user is refused; otherwise the code evaluates
`subscription.end_date and timezone.now().date() > subscription.end_date`,
comparing a `date` with the `DateTimeField` value — when `end_date` is set
this comparison raises `TypeError` (modelled through `TimeVal.pyGt`); the
intended expired branch marks the row `'expired'` and refuses. -/
def check_subscription_access (db : DB) (u : CustomUser) (now : Int) :
    Except PyErr (AccessCheck × DB) := do
  if u.is_superuser || u.is_staff then
    return (⟨true, none, none⟩, db)
  match u.tenant with
  | none => return (⟨false, some "You are not associated with any company.", some "/"⟩, db)
  | some tid =>
    match firstByNewest (·.created_at)
        (db.companySubs.filter fun s => s.tenant == tid && s.status == "active") with
    | none =>
        return (⟨false,
          some "Your company does not have an active subscription plan. Please subscribe to access HRM features.",
          some "/billing/pricing/"⟩, db)
    | some sub =>
      match sub.end_date with
      | none => return (⟨true, none, none⟩, db)
      | some e =>
        let expired ← TimeVal.pyGt (.date (dtToDate now)) (.dt e)
        if expired then
          return (⟨false,
            some "Your subscription has expired. Please renew to continue using HRM features.",
            some "/billing/pricing/"⟩, db.setCompanySub { sub with status := "expired" })
        else
          return (⟨true, none, none⟩, db)

/-- Outcome of a middleware `__call__`: hand the request to the next layer
(the wrapped view) or short-circuit with a redirect. -/
inductive MwOutcome where
  | passThrough
  | redirect (url : String)
  deriving Repr, DecidableEq

/-- `SubscriptionValidationMiddleware.__call__`
(saas/middleware/subscription_middleware.py).  Only paths starting with
`'/hrm/'` are checked; anonymous users and superusers/staff pass; users
without a tenant are redirected to `'/'`; the newest row of the
`Subscription` table (not `CompanySubscription`) for the tenant with status
`'active'` is fetched; no row redirects to pricing; a row whose (non-null
`DateField`) `end_date` is before today is saved back as `'expired'` and
redirects to pricing; otherwise the request passes. -/
def subscriptionValidationMiddleware (db : DB) (path : String)
    (u : Option CustomUser) (now : Int) : Except PyErr (MwOutcome × DB) := do
  if ¬ pyStartsWith path "/hrm/" then
    return (.passThrough, db)
  match u with
  | none => return (.passThrough, db)
  | some user =>
    if ¬ user.is_authenticated then
      return (.passThrough, db)
    if user.is_superuser || user.is_staff then
      return (.passThrough, db)
    match user.tenant with
    | none => return (.redirect "/", db)
    | some tid =>
      match firstByNewest (·.created_at)
          (db.subscriptions.filter fun s => s.tenant == tid && s.status == "active") with
      | none => return (.redirect "/billing/pricing/", db)
      | some sub =>
        let expired ← TimeVal.pyGt (.date (dtToDate now)) (.date sub.end_date)
        if expired then
          return (.redirect "/billing/pricing/",
            db.setSubscription { sub with status := "expired" })
        else
          return (.passThrough, db)

/-- A non-staff authenticated user attached to tenant 1, for C3/C9. -/
def sampleUserT1 : CustomUser :=
  { id := 10, email := "owner@acme.test", is_superuser := false,
    is_staff := false, is_authenticated := true, role := none, tenant := some 1 }

/-- An active, never-expiring `CompanySubscription` for tenant 1. -/
def sampleCompanySub : CompanySubscription :=
  { id := 1, tenant := 1, plan := 1, status := "active",
    start_date := some 0, end_date := none, created_at := 0 }

/-- Database state for C3: tenant 1 has an active `CompanySubscription`
(the table `check_subscription_access` queries) and no row at all in the
`Subscription` table (the one the middleware queries). -/
def dbC3 : DB :=
  { tenants := [sampleTenantA], plans := [], companySubs := [sampleCompanySub],
    subscriptions := [], transactions := [], invoices := [],
    permissions := [], rolePerms := [], roles := [] }

/-- C3: the duplicated active-subscription checks disagree.  On `dbC3` the
utils helper `check_subscription_access` grants access (it finds the active
`CompanySubscription` through `tenant.subscriptions`), while
`SubscriptionValidationMiddleware` on an `/hrm/` request for the same user
denies and redirects to pricing (it queries the distinct `Subscription`
table, which is empty). -/
theorem C3_duplicate_checks_disagree :
    check_subscription_access dbC3 sampleUserT1 86400 =
      .ok (⟨true, none, none⟩, dbC3) ∧
    subscriptionValidationMiddleware dbC3 "/hrm/overview/" (some sampleUserT1) 86400 =
      .ok (.redirect "/billing/pricing/", dbC3) := by
  constructor <;> rfl

/-- Tenant 1's newest active `CompanySubscription` with a (past) non-null
`end_date` — the input on which saas/utils.py is supposed to mark the row
expired. -/
def expiringCompanySub : CompanySubscription :=
  { id := 1, tenant := 1, plan := 1, status := "active",
    start_date := some 0, end_date := some 0, created_at := 0 }

/-- Tenant 1's newest active billing `Subscription`, ended on day 0. -/
def expiringSubscription : Subscription :=
  { id := 1, tenant := 1, plan := 1, start_date := 0, end_date := 0,
    billing_cycle := "monthly", amount := 100, status := "active",
    created_at := 0 }

/-- Database state for C9: tenant 1 holds an expired-but-still-'active'
row in each of the two subscription tables. -/
def dbC9 : DB :=
  { tenants := [sampleTenantA], plans := [], companySubs := [expiringCompanySub],
    subscriptions := [expiringSubscription], transactions := [], invoices := [],
    permissions := [], rolePerms := [], roles := [] }

/-- dbC9 after the middleware writes `status='expired'` to the billing
subscription row. -/
def dbC9Expired : DB :=
  { dbC9 with subscriptions := [{ expiringSubscription with status := "expired" }] }

/-- C9, evaluated at the failing input (day 10, i.e. `now = 864000`):
the middleware half of the claim holds — it marks the one stale
`Subscription` row `'expired'` and denies with a redirect to pricing,
leaving every other table unchanged — but `check_subscription_access`
raises `TypeError` instead of expiring the row: its comparison
`timezone.now().date() > subscription.end_date` pits a `date` against the
`DateTimeField` value of `CompanySubscription`. -/
theorem C9_expiry_write_paths :
    check_subscription_access dbC9 sampleUserT1 864000 = .error .typeError ∧
    subscriptionValidationMiddleware dbC9 "/hrm/overview/" (some sampleUserT1) 864000 =
      .ok (.redirect "/billing/pricing/", dbC9Expired) := by
  constructor <;> rfl

/-- Helper for `pySplitChar`: accumulates the current field (reversed). -/
def pySplitCharAux (sep : Char) : List Char → List Char → List String
  | [], acc => [String.mk acc.reverse]
  | c :: cs, acc =>
    if c = sep then String.mk acc.reverse :: pySplitCharAux sep cs []
    else pySplitCharAux sep cs (c :: acc)

/-- Python `str.split(sep)` for a one-character separator: splits at every
occurrence, keeping empty fields (`''.split('/') == ['']`). -/
def pySplitChar (s : String) (sep : Char) : List String :=
  pySplitCharAux sep s.data []

/-- Outcome of `TenantMiddleware.__call__`
(saas/middleware/tenant_middleware.py): either a redirect, or the request
proceeds to the view carrying `request.tenant` when one was attached. -/
inductive TenantMwOutcome where
  | redirect (url : String)
  | proceed (tenant : Option Tenant)
  deriving Repr, DecidableEq

/-- `TenantMiddleware.__call__` (saas/middleware/tenant_middleware.py):
take `request.path.split('/')[1]` as a slug when present; look the tenant up
by slug (`Tenant.objects.get`, whose `DoesNotExist` is swallowed; the
`slug` column is unique, so several matches cannot occur in a state
respecting the constraint, and would raise out of the middleware);
an inactive subscription redirects to `'subscription_plans'`, otherwise the
tenant is attached and the request proceeds. -/
def tenantMiddleware (db : DB) (path : String) (now : Int) :
    Except PyErr TenantMwOutcome :=
  match pySplitChar path '/' with
  | [] => .ok (.proceed none)
  | [_] => .ok (.proceed none)
  | _ :: seg :: _ =>
    match db.tenants.filter (fun t => t.slug == some seg) with
    | [] => .ok (.proceed none)
    | [t] =>
      if ¬ t.is_subscription_active now then .ok (.redirect "subscription_plans")
      else .ok (.proceed (some t))
    | _ => .error .multipleObjectsReturned

/-- C6: `TenantMiddleware` resolves the tenant from the first URL path
segment: with no tenant matching the segment the request proceeds with no
tenant attached; with a (unique, per the `unique=True` column) matching
tenant, an inactive subscription yields a redirect to `'subscription_plans'`
and an active one attaches the tenant and proceeds. -/
theorem C6_tenant_middleware (db : DB) (path : String) (now : Int)
    (first seg : String) (rest : List String)
    (hseg : pySplitChar path '/' = first :: seg :: rest) :
    (db.tenants.filter (fun t => t.slug == some seg) = [] →
      tenantMiddleware db path now = .ok (.proceed none)) ∧
    (∀ t, db.tenants.filter (fun t => t.slug == some seg) = [t] →
      (t.is_subscription_active now = false →
        tenantMiddleware db path now = .ok (.redirect "subscription_plans")) ∧
      (t.is_subscription_active now = true →
        tenantMiddleware db path now = .ok (.proceed (some t)))) := by
  refine ⟨fun hempty => ?_, fun t hone => ⟨fun hinact => ?_, fun hact => ?_⟩⟩
  · simp [tenantMiddleware, hseg, hempty]
  · simp [tenantMiddleware, hseg, hone, hinact]
  · simp [tenantMiddleware, hseg, hone, hact]

/-- Witness for C6: on `dbC3` and the path `/acme/dashboard/`, the slug
`acme` resolves to the active sample tenant, which is attached. -/
theorem C6_tenant_middleware_witness :
    (dbC3.tenants.filter (fun t => t.slug == some "acme") = [] →
      tenantMiddleware dbC3 "/acme/dashboard/" 50 = .ok (.proceed none)) ∧
    (∀ t, dbC3.tenants.filter (fun t => t.slug == some "acme") = [t] →
      (t.is_subscription_active 50 = false →
        tenantMiddleware dbC3 "/acme/dashboard/" 50 = .ok (.redirect "subscription_plans")) ∧
      (t.is_subscription_active 50 = true →
        tenantMiddleware dbC3 "/acme/dashboard/" 50 = .ok (.proceed (some t)))) :=
  C6_tenant_middleware dbC3 "/acme/dashboard/" 50 "" "acme" ["dashboard", ""] rfl

/-- Python `a or b` on two optional strings, where `None` and `''` are
falsy. -/
def pyOrStr (a b : Option String) : Option String :=
  match a with
  | some s => if s = "" then b else some s
  | none => b

/-- Django `queryset.get(...)` on the matching rows: exactly one row, or
`DoesNotExist` / `MultipleObjectsReturned`. -/
def djangoGetSingle (l : List α) : Except PyErr α :=
  match l with
  | [x] => .ok x
  | [] => .error .doesNotExist
  | _ => .error .multipleObjectsReturned

/-- `CompanySubscription.is_active` (saas/models/company_subscription.py):
`status == 'active' and (end_date is None or timezone.now() <= end_date)`. -/
def CompanySubscription.is_active (s : CompanySubscription) (now : Int) : Bool :=
  s.status == "active" &&
    (match s.end_date with
     | none => true
     | some e => decide (now ≤ e))

/-- `request.user.owned_tenants` as read by `require_subscription_feature`
(saas/decorators.py): no model in the repository declares a relation or
attribute named `owned_tenants` (`Tenant` has no owner foreign key, and the
reverse names pointing at `CustomUser` are `users`, `granted_permissions`,
...), so the attribute access raises `AttributeError` at runtime. -/
def CustomUser.ownedTenants (_ : DB) (_ : CustomUser) : Except PyErr (List Tenant) :=
  .error .attributeError

/-- `subscription.plan.features` as read by `require_subscription_feature`:
the `Plan` model has no `features` column and no relation named `features`
(its feature rows hang off `PlanFeature` under `related_name='plan_features'`),
so this attribute access would also raise `AttributeError`. -/
def Plan.featuresAttr (_ : Plan) : Except PyErr (List (String × Bool)) :=
  .error .attributeError

/-- Outcome of a decorated view call: either the wrapped view body ran, or
the decorator short-circuited with a redirect. -/
inductive ViewOutcome where
  | viewExecuted
  | redirect (url : String)
  deriving Repr, DecidableEq

/-- `require_subscription_feature(feature_name)` (saas/decorators.py):
resolve `tenant_slug` as `session.get('tenant_slug') or kwargs.get('tenant_slug')`
(redirecting to `company:login` when falsy); then, inside a blanket
`try/except` whose handler redirects to `company:login`: fetch the tenant
from `request.user.owned_tenants`, fetch the single active
`CompanySubscription`, redirect to `company:subscription_plans` when it is
expired, redirect to `tenant:dashboard` when the plan's `features` mapping
lacks a truthy `feature_name`, and otherwise run the view body. -/
def require_subscription_feature (db : DB) (featureName : String)
    (sessionSlug kwargsSlug : Option String) (u : CustomUser) (now : Int) :
    ViewOutcome :=
  match pyOrStr sessionSlug kwargsSlug with
  | none => .redirect "company:login"
  | some slug =>
    if slug = "" then .redirect "company:login"
    else
      match (do
        let owned ← CustomUser.ownedTenants db u
        let tenant ← djangoGetSingle (owned.filter fun t => t.slug == some slug)
        let sub ← djangoGetSingle (db.companySubs.filter fun s =>
          s.tenant == tenant.id && s.status == "active")
        if ¬ sub.is_active now then
          return ViewOutcome.redirect "company:subscription_plans"
        else do
          let plan ← (match db.plans.find? (fun p => p.id == sub.plan) with
            | some p => Except.ok p
            | none => Except.error PyErr.doesNotExist)
          let feats ← plan.featuresAttr
          match feats.find? (fun kv => kv.1 == featureName) with
          | none => return ViewOutcome.redirect "tenant:dashboard"
          | some kv =>
            if ¬ kv.2 then return ViewOutcome.redirect "tenant:dashboard"
            else return ViewOutcome.viewExecuted : Except PyErr ViewOutcome) with
      | .ok r => r
      | .error _ => .redirect "company:login"

/-- C5, settled against the code as written: the wrapped view body can never
run.  The first statement inside the `try` reads
`request.user.owned_tenants`, a relation no model defines, so every request
that passes the slug check lands in the `except` handler; the decorator
therefore answers `redirect('company:login')` for every input — including a
fully entitled one (owner session slug set, active unexpired
`CompanySubscription`, feature in plan) — and never executes the view. -/
theorem C5_require_subscription_feature_never_runs (db : DB)
    (featureName : String) (sessionSlug kwargsSlug : Option String)
    (u : CustomUser) (now : Int) :
    require_subscription_feature db featureName sessionSlug kwargsSlug u now =
      .redirect "company:login" := by
  unfold require_subscription_feature
  rcases pyOrStr sessionSlug kwargsSlug with _ | s
  · rfl
  · by_cases hs : s = "" <;> simp [hs, CustomUser.ownedTenants, Bind.bind, Except.bind]

/-- Python regex `\s` (ASCII whitespace classes). -/
def isPySpace (c : Char) : Bool :=
  c = ' ' || c = '\t' || c = '\n' || c = '\r' || c = '\x0b' || c = '\x0c'

/-- Character kept by slugify's first pass (`re.sub(r'[^\w\s-]', '', ...)`):
word characters, whitespace and hyphens survive. -/
def slugKeep (c : Char) : Bool :=
  c.isAlphanum || c = '_' || c = '-' || isPySpace c

/-- A character collapsed by slugify's second pass (`[-\s]+` → `'-'`). -/
def isDashOrSpace (c : Char) : Bool :=
  c = '-' || isPySpace c

/-- Collapse every maximal run of hyphens/whitespace into a single hyphen;
the flag records whether the previous character belonged to such a run. -/
def collapseDashRuns : List Char → Bool → List Char
  | [], _ => []
  | c :: cs, prev =>
    if isDashOrSpace c then
      if prev then collapseDashRuns cs true
      else '-' :: collapseDashRuns cs true
    else c :: collapseDashRuns cs false

/-- A character stripped from the ends by slugify (`.strip('-_')`). -/
def isDashOrUnderscore (c : Char) : Bool :=
  c = '-' || c = '_'

/-- Python `str.strip('-_')`: drop those characters from both ends. -/
def stripDashUnderscore (l : List Char) : List Char :=
  ((l.dropWhile isDashOrUnderscore).reverse.dropWhile isDashOrUnderscore).reverse

/-- `django.utils.text.slugify` restricted to ASCII input (the unicode
normalisation step is the identity there): lowercase, drop characters other
than word characters / whitespace / hyphens, collapse hyphen-or-whitespace
runs to single hyphens, and strip `-`/`_` from the ends. -/
def slugifyStr (s : String) : String :=
  String.mk (stripDashUnderscore (collapseDashRuns ((s.data.map Char.toLower).filter slugKeep) false))

/-- The domain `while` loop of `Tenant.save` (saas/models/tenant.py): try
`{base}.myapp.com`, then `{base}-{suffix}.myapp.com` for `suffix = 1, 2, …`
until no other tenant row holds the candidate.  The loop is given fuel; an
exhausted fuel models the (unreachable-for-this-loop) non-terminating run,
on which no save completes. -/
def domainLoop (others : List Tenant) (base : String) :
    String → Nat → Nat → Except PyErr String
  | _, _, 0 => .error .fuelExhausted
  | cand, suffix, fuel + 1 =>
    if others.any (fun o => o.domain == cand) then
      domainLoop others base (base ++ "-" ++ toString suffix ++ ".myapp.com")
        (suffix + 1) fuel
    else .ok cand

/-- The slug `while` loop of `Tenant.save`: try `base_slug`, then
`{base_slug}-{get_random_string(5)}` until no other tenant row holds the
candidate; `rnd i` is the i-th string drawn from the generator. -/
def slugLoop (others : List Tenant) (base : String) (rnd : Nat → String) :
    String → Nat → Nat → Except PyErr String
  | _, _, 0 => .error .fuelExhausted
  | cand, i, fuel + 1 =>
    if others.any (fun o => o.slug == some cand) then
      slugLoop others base rnd (base ++ "-" ++ rnd i) (i + 1) fuel
    else .ok cand

/-- The domain half of `Tenant.save`: keep a provided (truthy) domain,
otherwise run the generation loop on `slugify(self.name)`. -/
def saveDomain (others : List Tenant) (t : Tenant) (fuel : Nat) :
    Except PyErr String :=
  if t.domain = "" then
    domainLoop others (slugifyStr t.name) (slugifyStr t.name ++ ".myapp.com") 1 fuel
  else .ok t.domain

/-- The slug half of `Tenant.save`: keep a provided truthy slug (`None` and
`''` are falsy), otherwise run the generation loop on
`slugify(self.name)`. -/
def saveSlug (others : List Tenant) (t : Tenant) (rnd : Nat → String)
    (fuel : Nat) : Except PyErr String :=
  match t.slug with
  | none => slugLoop others (slugifyStr t.name) rnd (slugifyStr t.name) 0 fuel
  | some s =>
    if s = "" then slugLoop others (slugifyStr t.name) rnd (slugifyStr t.name) 0 fuel
    else .ok s

/-- Fresh primary key for an inserted tenant row. -/
def nextTenantId (db : DB) : Nat :=
  (db.tenants.map (·.id)).foldl max 0 + 1

/-- `Tenant.save` (saas/models/tenant.py): generate domain and slug when
missing (the queries exclude the row's own pk), then `super().save()`, whose
`unique=True` columns make the database reject a domain or slug held by
another row (`IntegrityError`).  `pk = none` models inserting a new row,
`pk = some i` updating row `i`. -/
def tenantSave (db : DB) (pk : Option Nat) (t : Tenant) (rnd : Nat → String)
    (fuel : Nat) : Except PyErr (Tenant × DB) :=
  let others := db.tenants.filter fun o => !(pk == some o.id)
  match saveDomain others t fuel, saveSlug others t rnd fuel with
  | .error e, _ => .error e
  | .ok _, .error e => .error e
  | .ok domain, .ok slug =>
    let newId := match pk with
      | some i => i
      | none => nextTenantId db
    let t' := { t with id := newId, domain := domain, slug := some slug }
    if others.any (fun o => o.domain == t'.domain) then .error .integrityError
    else if others.any (fun o => o.slug == t'.slug) then .error .integrityError
    else
      match pk with
      | some i =>
        .ok (t', { db with tenants := db.tenants.map fun o => if o.id == i then t' else o })
      | none => .ok (t', { db with tenants := db.tenants ++ [t'] })

/-- A string with a non-empty right part is non-empty. -/
theorem append_ne_empty_right (a b : String) (hb : b ≠ "") : a ++ b ≠ "" := by
  intro h
  apply hb
  have hd := congrArg String.data h
  simp [String.data_append] at hd
  exact String.ext hd.2

/-- A string with a non-empty left part is non-empty. -/
theorem append_ne_empty_left (a b : String) (ha : a ≠ "") : a ++ b ≠ "" := by
  intro h
  apply ha
  have hd := congrArg String.data h
  simp [String.data_append] at hd
  exact String.ext hd.1

/-- Any candidate the domain loop returns is free of conflicts and is either
the candidate it started from or of the suffixed form. -/
theorem domainLoop_ok (others : List Tenant) (base : String) :
    ∀ fuel cand suffix c, domainLoop others base cand suffix fuel = .ok c →
      (others.any (fun o => o.domain == c)) = false ∧
      (c = cand ∨ ∃ k : Nat, c = base ++ "-" ++ toString k ++ ".myapp.com") := by
  intro fuel
  induction fuel with
  | zero => intro cand suffix c h; simp [domainLoop] at h
  | succ n ih =>
    intro cand suffix c h
    unfold domainLoop at h
    by_cases hc : others.any (fun o => o.domain == cand)
    · rw [if_pos hc] at h
      rcases ih _ _ _ h with ⟨hfree, hshape⟩
      refine ⟨hfree, .inr ?_⟩
      rcases hshape with rfl | ⟨k, hk⟩
      · exact ⟨suffix, rfl⟩
      · exact ⟨k, hk⟩
    · rw [if_neg hc] at h
      simp only [Except.ok.injEq] at h
      subst h
      exact ⟨by simpa using hc, .inl rfl⟩

/-- Any candidate the slug loop returns is free of conflicts and is either
the candidate it started from or base-plus-random-suffix. -/
theorem slugLoop_ok (others : List Tenant) (base : String) (rnd : Nat → String) :
    ∀ fuel cand i c, slugLoop others base rnd cand i fuel = .ok c →
      (others.any (fun o => o.slug == some c)) = false ∧
      (c = cand ∨ ∃ j : Nat, c = base ++ "-" ++ rnd j) := by
  intro fuel
  induction fuel with
  | zero => intro cand i c h; simp [slugLoop] at h
  | succ n ih =>
    intro cand i c h
    unfold slugLoop at h
    by_cases hc : others.any (fun o => o.slug == some cand)
    · rw [if_pos hc] at h
      rcases ih _ _ _ h with ⟨hfree, hshape⟩
      refine ⟨hfree, .inr ?_⟩
      rcases hshape with rfl | ⟨j, hj⟩
      · exact ⟨i, rfl⟩
      · exact ⟨j, hj⟩
    · rw [if_neg hc] at h
      simp only [Except.ok.injEq] at h
      subst h
      exact ⟨by simpa using hc, .inl rfl⟩

/-- A completed domain half of `Tenant.save` yields a non-empty domain. -/
theorem saveDomain_ne_empty (others : List Tenant) (t : Tenant) (fuel : Nat)
    (d : String) (h : saveDomain others t fuel = .ok d) : d ≠ "" := by
  unfold saveDomain at h
  by_cases ht : t.domain = ""
  · rw [if_pos ht] at h
    rcases (domainLoop_ok others _ fuel _ 1 d h).2 with rfl | ⟨k, hk⟩
    · exact append_ne_empty_right _ _ (by decide)
    · rw [hk]; exact append_ne_empty_right _ _ (by decide)
  · rw [if_neg ht] at h
    simp only [Except.ok.injEq] at h
    subst h
    exact ht

/-- A completed slug half of `Tenant.save` yields a non-empty slug whenever
the slugified company name is non-empty. -/
theorem saveSlug_ne_empty (others : List Tenant) (t : Tenant)
    (rnd : Nat → String) (fuel : Nat) (s : String)
    (h : saveSlug others t rnd fuel = .ok s)
    (hbase : slugifyStr t.name ≠ "") : s ≠ "" := by
  have gen : ∀ c, slugLoop others (slugifyStr t.name) rnd (slugifyStr t.name) 0 fuel = .ok c →
      c ≠ "" := by
    intro c hc
    rcases (slugLoop_ok others _ rnd fuel _ 0 c hc).2 with rfl | ⟨j, hj⟩
    · exact hbase
    · rw [hj]
      exact append_ne_empty_left _ _ (append_ne_empty_right _ _ (by decide))
  unfold saveSlug at h
  rcases hslug : t.slug with _ | s0
  · rw [hslug] at h
    exact gen s h
  · rw [hslug] at h
    dsimp only at h
    by_cases hs0 : s0 = ""
    · rw [if_pos hs0] at h
      exact gen s h
    · rw [if_neg hs0] at h
      simp only [Except.ok.injEq] at h
      subst h
      exact hs0

/-- Decomposition of a completed `Tenant.save`: the saved row carries the
generated (or kept) domain and slug, and passed the uniqueness checks
against every other row. -/
theorem tenantSave_ok_elim (db : DB) (pk : Option Nat) (t : Tenant)
    (rnd : Nat → String) (fuel : Nat) (t' : Tenant) (db' : DB)
    (h : tenantSave db pk t rnd fuel = .ok (t', db')) :
    ∃ d s,
      saveDomain (db.tenants.filter fun o => !(pk == some o.id)) t fuel = .ok d ∧
      saveSlug (db.tenants.filter fun o => !(pk == some o.id)) t rnd fuel = .ok s ∧
      t'.domain = d ∧ t'.slug = some s ∧ t'.name = t.name ∧
      ((db.tenants.filter fun o => !(pk == some o.id)).any
        (fun o => o.domain == t'.domain)) = false ∧
      ((db.tenants.filter fun o => !(pk == some o.id)).any
        (fun o => o.slug == t'.slug)) = false := by
  simp only [tenantSave] at h
  rcases hd : saveDomain (db.tenants.filter fun o => !(pk == some o.id)) t fuel with e | d
  · rw [hd] at h; cases h
  rcases hs : saveSlug (db.tenants.filter fun o => !(pk == some o.id)) t rnd fuel with e | s
  · rw [hd, hs] at h; cases h
  rw [hd, hs] at h
  dsimp only at h
  by_cases h1 : ((db.tenants.filter fun o => !(pk == some o.id)).any
      (fun o => o.domain == d)) = true
  · rw [if_pos h1] at h; cases h
  rw [if_neg h1] at h
  by_cases h2 : ((db.tenants.filter fun o => !(pk == some o.id)).any
      (fun o => o.slug == some s)) = true
  · rw [if_pos h2] at h; cases h
  rw [if_neg h2] at h
  rcases pk with _ | i <;>
    [skip; skip] <;>
    · dsimp only at h
      simp only [Except.ok.injEq, Prod.mk.injEq] at h
      obtain ⟨ht', _⟩ := h
      subst ht'
      exact ⟨d, s, rfl, rfl, rfl, rfl, rfl,
        by simpa using h1, by simpa using h2⟩

/-- The empty database. -/
def dbEmpty : DB :=
  { tenants := [], plans := [], companySubs := [], subscriptions := [],
    transactions := [], invoices := [], permissions := [], rolePerms := [],
    roles := [] }

/-- A fixed stream for `get_random_string(5)`. -/
def rndConst : Nat → String := fun _ => "abcde"

/-- A tenant whose company name has no word characters, so that
`slugify(name) = ''`. -/
def tenantPunct : Tenant :=
  { id := 0, name := "???", domain := "", status := "inactive", slug := none,
    subscription_plan := none, razorpay_payment_id := none,
    razorpay_order_id := none, subscription_start_date := none,
    subscription_end_date := none, contact_email := none }

/-- C10 counterexample: saving a tenant named `"???"` into an empty database
completes, and the completed row's slug is the empty string — refuting the
claim that every tenant completing `Tenant.save` has a non-empty slug
(`slugify('???') = ''`, the empty candidate conflicts with no other row, and
`super().save()` accepts it). -/
theorem C10_counterexample :
    (tenantSave dbEmpty none tenantPunct rndConst 3).toOption.map
      (fun p => (p.1.slug, p.1.domain)) = some (some "", ".myapp.com") := by
  rfl

/-- C10 as amended: every tenant that completes `Tenant.save` has a
non-empty domain and a (present) slug that is unique across the other
tenant rows, as is the domain; the slug is moreover non-empty whenever the
slugified company name is non-empty (when it is empty and unclaimed, the
empty slug itself is saved). -/
theorem C10_tenant_save_amended (db : DB) (pk : Option Nat) (t : Tenant)
    (rnd : Nat → String) (fuel : Nat) (t' : Tenant) (db' : DB)
    (h : tenantSave db pk t rnd fuel = .ok (t', db')) :
    t'.domain ≠ "" ∧
    (∃ s, t'.slug = some s ∧ (slugifyStr t.name ≠ "" → s ≠ "")) ∧
    (∀ o ∈ db.tenants, pk ≠ some o.id →
      o.domain ≠ t'.domain ∧ o.slug ≠ t'.slug) := by
  obtain ⟨d, s, hd, hs, hdom, hslug, _, hany1, hany2⟩ :=
    tenantSave_ok_elim db pk t rnd fuel t' db' h
  refine ⟨?_, ⟨s, hslug, ?_⟩, ?_⟩
  · rw [hdom]
    exact saveDomain_ne_empty _ _ _ _ hd
  · intro hbase
    exact saveSlug_ne_empty _ _ _ _ _ hs hbase
  · intro o ho hpk
    have hmem : o ∈ db.tenants.filter fun x => !(pk == some x.id) := by
      rw [List.mem_filter]
      exact ⟨ho, by simp [hpk]⟩
    refine ⟨?_, ?_⟩
    · have := List.any_eq_false.mp hany1 o hmem
      simpa using this
    · have := List.any_eq_false.mp hany2 o hmem
      simpa using this

/-- The row produced by saving `sampleTenantB` into the empty database:
fresh id, generated slug `other`. -/
def savedTenantB : Tenant :=
  { sampleTenantB with id := 1, slug := some "other" }

/-- The database after that save. -/
def dbAfterSaveB : DB :=
  { dbEmpty with tenants := [savedTenantB] }

/-- Witness for the amended C10 at a concrete save. -/
theorem C10_tenant_save_amended_witness :
    savedTenantB.domain ≠ "" ∧
    (∃ s, savedTenantB.slug = some s ∧ (slugifyStr sampleTenantB.name ≠ "" → s ≠ "")) ∧
    (∀ o ∈ dbEmpty.tenants, (none : Option Nat) ≠ some o.id →
      o.domain ≠ savedTenantB.domain ∧ o.slug ≠ savedTenantB.slug) :=
  C10_tenant_save_amended dbEmpty none sampleTenantB rndConst 2 savedTenantB
    dbAfterSaveB (by rfl)

/-- Python `int()` applied to an exact `Decimal` value: truncation toward
zero. -/
def pyIntOfRat (q : ℚ) : ℤ :=
  q.num.tdiv q.den

/-- The paisa amount computed by `razorpay_payment`
(saas/views/payment_views.py): `int(price_yearly * 100)` for the `'yearly'`
cycle, `int(price_monthly * 100)` otherwise. -/
def razorpay_payment_amount (plan : Plan) (cycle : String) : ℤ :=
  if cycle = "yearly" then pyIntOfRat (plan.price_yearly * 100)
  else pyIntOfRat (plan.price_monthly * 100)

/-- The paisa amount computed by `create_razorpay_order`
(saas/views/payment_views.py), an identical if/else. -/
def create_razorpay_order_amount (plan : Plan) (cycle : String) : ℤ :=
  if cycle = "yearly" then pyIntOfRat (plan.price_yearly * 100)
  else pyIntOfRat (plan.price_monthly * 100)

/-- The amount stored on the `PaymentTransaction`:
`Decimal(amount) / Decimal(100)` (exact at these magnitudes). -/
def txAmountOfPaisa (amount : ℤ) : ℚ :=
  (amount : ℚ) / 100

/-- The plan price selected by the billing cycle (spec-side abbreviation for
the common if/else of both order-creation views). -/
def selectedPrice (plan : Plan) (cycle : String) : ℚ :=
  if cycle = "yearly" then plan.price_yearly else plan.price_monthly

/-- Truncation is exact on a rational that is an integer. -/
theorem pyIntOfRat_eq_num (q : ℚ) (h : q.den = 1) : pyIntOfRat q = q.num := by
  unfold pyIntOfRat
  rw [h]
  simp

/-- C7: both order-creation views compute the same paisa amount; whenever
the selected plan price has at most two decimal places (`price * 100` is an
integer), that amount is exactly `price * 100` and the amount recorded on
the `PaymentTransaction` (paisa divided by 100) is exactly the plan
price. -/
theorem C7_payment_amount_roundtrip (plan : Plan) (cycle : String)
    (h : (selectedPrice plan cycle * 100).den = 1) :
    razorpay_payment_amount plan cycle = create_razorpay_order_amount plan cycle ∧
    ((razorpay_payment_amount plan cycle : ℚ) = selectedPrice plan cycle * 100) ∧
    txAmountOfPaisa (razorpay_payment_amount plan cycle) = selectedPrice plan cycle := by
  have hsel : razorpay_payment_amount plan cycle =
      pyIntOfRat (selectedPrice plan cycle * 100) := by
    unfold razorpay_payment_amount selectedPrice
    by_cases hc : cycle = "yearly" <;> simp [hc]
  have hnum : ((selectedPrice plan cycle * 100).num : ℚ) =
      selectedPrice plan cycle * 100 := (Rat.den_eq_one_iff _).mp h
  have hcast : ((razorpay_payment_amount plan cycle : ℤ) : ℚ) =
      selectedPrice plan cycle * 100 := by
    rw [hsel, pyIntOfRat_eq_num _ h, hnum]
  refine ⟨rfl, hcast, ?_⟩
  unfold txAmountOfPaisa
  rw [hcast]
  exact mul_div_cancel_right₀ _ (by norm_num)

/-- A sample plan with two-decimal prices. -/
def samplePlan : Plan :=
  { id := 1, name := "Pro", price_monthly := 999/100, price_yearly := 9999/100,
    max_users := 10, status := true, plan_type := "subscription" }

/-- Witness for C7 at the sample plan's yearly cycle. -/
theorem C7_payment_amount_roundtrip_witness :
    razorpay_payment_amount samplePlan "yearly" =
      create_razorpay_order_amount samplePlan "yearly" ∧
    ((razorpay_payment_amount samplePlan "yearly" : ℚ) =
      selectedPrice samplePlan "yearly" * 100) ∧
    txAmountOfPaisa (razorpay_payment_amount samplePlan "yearly") =
      selectedPrice samplePlan "yearly" :=
  C7_payment_amount_roundtrip samplePlan "yearly"
    (by norm_num [selectedPrice, samplePlan])

/-- Fresh primary key for an inserted billing subscription row. -/
def nextSubscriptionId (db : DB) : Nat :=
  (db.subscriptions.map (·.id)).foldl max 0 + 1

/-- Fresh primary key for an inserted invoice row. -/
def nextInvoiceId (db : DB) : Nat :=
  (db.invoices.map (·.id)).foldl max 0 + 1

/-- `Invoice.objects.create(...)`: the insert is rejected with
`IntegrityError` when the NOT NULL `total_amount` column was left unset
(Django sends NULL for the missing attribute) or when the unique
`invoice_number` is already taken; otherwise the row is appended. -/
def invoiceCreate (db : DB) (inv : Invoice) : Except PyErr DB :=
  if inv.total_amount = none then .error .integrityError
  else if db.invoices.any (fun i => i.invoice_number == inv.invoice_number) then
    .error .integrityError
  else .ok { db with invoices := db.invoices ++ [inv] }

/-- A JSON response of the payment views: the `success` flag plus the
optional `error` / `redirect_url` / `message` payload fields. -/
structure JsonResp where
  success : Bool
  error : Option String
  redirect_url : Option String
  message : Option String
  deriving Repr, DecidableEq

/-- `razorpay_verify` (saas/views/payment_views.py, first verification
endpoint).  Non-POST requests get `success=False`.  The tenant comes from
`get_object_or_404(Tenant, id=tenant_id)`.  The submitted signature is
compared against `hmac_sha256_hex(RAZORPAY_KEY_SECRET, order_id|payment_id)`
— the HMAC primitive is a parameter `hmacHex` of the embedding.  On a match
the tenant is activated (status `'active'`, start `now`, end `now + 30
days`, razorpay ids recorded) through the full `Tenant.save`; then, inside
nested try/except-pass blocks, the matching `PaymentTransaction` (if any)
is marked `'PAID'` and a `Subscription` row is inserted when a plan can be
resolved from `tx.plan or tenant.subscription_plan`.  On a mismatch nothing
is written and `success=False` is returned. -/
def razorpay_verify (db : DB) (hmacHex : String → String → String)
    (keySecret : String) (method : String) (tenantId : Nat)
    (paymentId orderId signature : String) (now : Int) (rnd : Nat → String)
    (fuel : Nat) : Except PyErr (JsonResp × DB) :=
  if method ≠ "POST" then
    .ok (⟨false, some "Invalid request.", none, none⟩, db)
  else
    match db.tenants.find? (fun t => t.id == tenantId) with
    | none => .error .http404
    | some tenant =>
      if hmacHex keySecret (orderId ++ "|" ++ paymentId) = signature then
        match tenantSave db (some tenant.id)
            { tenant with
              status := "active",
              subscription_start_date := some now,
              subscription_end_date := some (now + 30 * 86400),
              razorpay_payment_id := some paymentId,
              razorpay_order_id := some orderId } rnd fuel with
        | .error e => .error e
        | .ok (t2, db1) =>
          let db2 :=
            match db1.transactions.find? (fun tx => tx.razorpay_order_id == orderId) with
            | none => db1
            | some tx =>
              let tx' := { tx with
                           razorpay_payment_id := some paymentId,
                           status := "PAID" }
              let db1' := { db1 with transactions :=
                              db1.transactions.map fun x =>
                                if x.id == tx.id then tx' else x }
              match (match tx'.plan with
                     | some p => some p
                     | none => t2.subscription_plan) with
              | none => db1'
              | some planId =>
                let start := match t2.subscription_start_date with
                  | some sd => dtToDate sd
                  | none => dtToDate now
                let newSub : Subscription :=
                  { id := nextSubscriptionId db1', tenant := t2.id, plan := planId,
                    start_date := start,
                    end_date := match t2.subscription_end_date with
                      | some ed => dtToDate ed
                      | none => start,
                    billing_cycle := "monthly", amount := tx.amount,
                    status := "active", created_at := now }
                { db1' with subscriptions := db1'.subscriptions ++ [newSub] }
          .ok (⟨true, none,
            some ("/tenant/success/?tenant=" ++ toString t2.id), none⟩, db2)
      else
        .ok (⟨false, some "Payment verification failed.", none, none⟩, db)

/-- `verify_razorpay_payment` (saas/views/payment_views.py, second
verification endpoint).  The whole body sits inside `try/except` handlers
that turn any raised exception into a `success=False` JSON response, with
all database writes made before the exception left in place.  On a POST
with a valid signature: the unique transaction for the order id is marked
`'paid'`, every `'active'` `Subscription` of the transaction's tenant is
updated to `'expired'`, a new `'active'` `Subscription` is inserted
(30/365 days by billing cycle), the tenant row is activated and saved, and
finally an `Invoice.objects.create` runs — without supplying the NOT NULL
`total_amount` column, so the insert always raises `IntegrityError`; the
handler turns that into a `success=False` response while every earlier
write (paid transaction, expired/new subscriptions, activated tenant)
stays in place.  The `success=True` branch below mirrors the source text
but is unreachable in the program. -/
def verify_razorpay_payment (db : DB) (hmacHex : String → String → String)
    (keySecret : String) (method : String)
    (orderId paymentId signature : String) (now : Int) (rnd : Nat → String)
    (fuel : Nat) : JsonResp × DB :=
  if method ≠ "POST" then
    (⟨false, some "Invalid request method", none, none⟩, db)
  else if hmacHex keySecret (orderId ++ "|" ++ paymentId) ≠ signature then
    (⟨false, some "Invalid signature", none, none⟩, db)
  else
    match djangoGetSingle (db.transactions.filter fun tx =>
        tx.razorpay_order_id == orderId) with
    | .error .doesNotExist => (⟨false, some "Transaction not found", none, none⟩, db)
    | .error _ => (⟨false, some "error", none, none⟩, db)
    | .ok tx =>
      let tx' := { tx with
                   razorpay_payment_id := some paymentId,
                   razorpay_signature := some signature, status := "paid" }
      let db1 := { db with transactions :=
                     db.transactions.map fun x =>
                       if x.id == tx.id then tx' else x }
      match tx'.tenant with
      | none => (⟨false, some "error", none, none⟩, db1)
      | some tenantId =>
        match db1.tenants.find? (fun t => t.id == tenantId) with
        | none => (⟨false, some "error", none, none⟩, db1)
        | some tenant =>
          let start := dtToDate now
          let endDay := if tx'.billing_cycle = "yearly" then start + 365
            else start + 30
          let db2 := { db1 with subscriptions :=
            db1.subscriptions.map fun s =>
              if s.tenant == tenantId && s.status == "active" then
                { s with status := "expired" }
              else s }
          match tx'.plan with
          | none => (⟨false, some "error", none, none⟩, db2)
          | some planId =>
            let newSub : Subscription :=
              { id := nextSubscriptionId db2, tenant := tenantId, plan := planId,
                start_date := start, end_date := endDay,
                billing_cycle := tx'.billing_cycle, amount := tx'.amount,
                status := "active", created_at := now }
            let db3 := { db2 with subscriptions := db2.subscriptions ++ [newSub] }
            match tenantSave db3 (some tenant.id)
                { tenant with
                  subscription_plan := some planId,
                  subscription_start_date := some now,
                  subscription_end_date := some (endDay * 86400),
                  status := "active" } rnd fuel with
            | .error _ => (⟨false, some "error", none, none⟩, db3)
            | .ok (t2, db4) =>
              let inv : Invoice :=
                { id := nextInvoiceId db4, tenant := t2.id,
                  subscription := some newSub.id,
                  invoice_number := "INV-" ++ toString (dtToDate now) ++ "-" ++
                    toString t2.id,
                  amount := tx'.amount,
                  total_amount := none,
                  due_date := some endDay,
                  status := "paid" }
              match invoiceCreate db4 inv with
              | .error _ => (⟨false, some "error", none, none⟩, db4)
              | .ok db5 =>
                (⟨true, none, none,
                  some "Payment verified and subscription activated"⟩, db5)

/-- Saving a tenant row whose domain and slug are already set (and in
conflict with no other row) performs a plain update: no regeneration, the
row is written back unchanged apart from the caller's field updates. -/
theorem tenantSave_keep (db : DB) (pkid : Nat) (t : Tenant)
    (rnd : Nat → String) (fuel : Nat) (s0 : String)
    (hdom : t.domain ≠ "") (hslug : t.slug = some s0) (hs0 : s0 ≠ "")
    (hu1 : ((db.tenants.filter fun o => !(some pkid == some o.id)).any
      (fun o => o.domain == t.domain)) = false)
    (hu2 : ((db.tenants.filter fun o => !(some pkid == some o.id)).any
      (fun o => o.slug == some s0)) = false) :
    tenantSave db (some pkid) t rnd fuel =
      .ok ({ t with id := pkid },
        { db with tenants := db.tenants.map fun o =>
            if o.id == pkid then { t with id := pkid } else o }) := by
  have hd : saveDomain (db.tenants.filter fun o => !(some pkid == some o.id))
      t fuel = .ok t.domain := by
    unfold saveDomain
    rw [if_neg hdom]
  have hs : saveSlug (db.tenants.filter fun o => !(some pkid == some o.id))
      t rnd fuel = .ok s0 := by
    unfold saveSlug
    rw [hslug]
    dsimp only
    rw [if_neg hs0]
  have hu1' := List.any_eq_false.mp hu1
  have hu2' := List.any_eq_false.mp hu2
  simp [List.mem_filter] at hu1' hu2'
  simp only [tenantSave, hd, hs]
  simp [hslug, hu1', hu2']
  rw [if_neg (by rintro ⟨x, hx, hne, hdm⟩; exact hu1' x hx hne hdm)]
  rw [if_neg (by rintro ⟨x, hx, hne, hsl⟩; exact hu2' x hx hne hsl)]


/-- Expected value: the tenant row as activated by `razorpay_verify`. -/
def activatedTenantRV (tenant : Tenant) (paymentId orderId : String)
    (now : Int) : Tenant :=
  { tenant with
    status := "active",
    subscription_start_date := some now,
    subscription_end_date := some (now + 30 * 86400),
    razorpay_payment_id := some paymentId,
    razorpay_order_id := some orderId }

/-- On a POST with a valid signature and the referenced rows present,
`razorpay_verify` returns success and the database with: the tenant row
activated, the transaction marked PAID, and a fresh active `Subscription`
row appended. -/
theorem razorpay_verify_valid_eq
    (db : DB) (hmacHex : String → String → String) (keySecret : String)
    (tenantId : Nat) (paymentId orderId signature : String) (now : Int)
    (rnd : Nat → String) (fuel : Nat) (tenant : Tenant) (s0 : String)
    (tx : PaymentTransaction) (planId : Nat)
    (hfind : db.tenants.find? (fun t => t.id == tenantId) = some tenant)
    (hdom : tenant.domain ≠ "") (hslug : tenant.slug = some s0) (hs0 : s0 ≠ "")
    (hu1 : ((db.tenants.filter fun o => !(some tenant.id == some o.id)).any
      (fun o => o.domain == tenant.domain)) = false)
    (hu2 : ((db.tenants.filter fun o => !(some tenant.id == some o.id)).any
      (fun o => o.slug == some s0)) = false)
    (htxf : db.transactions.find? (fun x => x.razorpay_order_id == orderId) = some tx)
    (hplan : tx.plan = some planId)
    (hvalid : signature = hmacHex keySecret (orderId ++ "|" ++ paymentId)) :
    razorpay_verify db hmacHex keySecret "POST" tenantId paymentId orderId
      signature now rnd fuel =
    .ok (⟨true, none,
      some ("/tenant/success/?tenant=" ++ toString tenant.id), none⟩,
      { db with
        tenants := db.tenants.map fun o =>
          if o.id == tenant.id then activatedTenantRV tenant paymentId orderId now
          else o,
        transactions := db.transactions.map fun x =>
          if x.id == tx.id then
            { tx with razorpay_payment_id := some paymentId, status := "PAID" }
          else x,
        subscriptions := db.subscriptions ++
          [{ id := (db.subscriptions.map (·.id)).foldl max 0 + 1,
             tenant := tenant.id, plan := planId,
             start_date := dtToDate now,
             end_date := dtToDate (now + 30 * 86400),
             billing_cycle := "monthly", amount := tx.amount,
             status := "active", created_at := now }] }) := by
  have hsave := tenantSave_keep db tenant.id
    (activatedTenantRV tenant paymentId orderId now) rnd fuel s0 hdom hslug hs0
    hu1 hu2
  simp only [razorpay_verify]
  rw [if_neg (by simp)]
  rw [hfind]
  dsimp only
  rw [if_pos hvalid.symm]
  rw [show ({ tenant with
        status := "active",
        subscription_start_date := some now,
        subscription_end_date := some (now + 30 * 86400),
        razorpay_payment_id := some paymentId,
        razorpay_order_id := some orderId } : Tenant) =
      activatedTenantRV tenant paymentId orderId now from rfl]
  rw [hsave]
  dsimp only
  rw [htxf]
  dsimp only
  rw [show ({ tx with
              razorpay_payment_id := some paymentId,
              status := "PAID" } : PaymentTransaction).plan = tx.plan from rfl,
      hplan]
  dsimp only
  rfl

/-- Expected value: the subscription end day computed by
`verify_razorpay_payment` (365/30 days from today by billing cycle). -/
def vrpEndDay (tx : PaymentTransaction) (now : Int) : Int :=
  if tx.billing_cycle = "yearly" then dtToDate now + 365 else dtToDate now + 30

/-- Expected value: the tenant row as activated by
`verify_razorpay_payment`. -/
def activatedTenantVP (tenant : Tenant) (planId : Nat) (now endDay : Int) :
    Tenant :=
  { tenant with
    subscription_plan := some planId,
    subscription_start_date := some now,
    subscription_end_date := some (endDay * 86400),
    status := "active" }

/-- Expected value: the fresh active `Subscription` row inserted by
`verify_razorpay_payment`. -/
def vrpNewSub (db : DB) (tx : PaymentTransaction) (tenantId planId : Nat)
    (now : Int) : Subscription :=
  { id := (((db.subscriptions.map fun s =>
        if s.tenant == tenantId && s.status == "active" then
          { s with status := "expired" }
        else s)).map (·.id)).foldl max 0 + 1,
    tenant := tenantId, plan := planId, start_date := dtToDate now,
    end_date := vrpEndDay tx now, billing_cycle := tx.billing_cycle,
    amount := tx.amount, status := "active", created_at := now }

/-- On a POST with a valid signature and the referenced rows present,
`verify_razorpay_payment` completes with: the transaction marked paid, the
tenant's previously active `Subscription` rows expired, the fresh active
row appended, and the tenant row activated — but the JSON response carries
`success=False`, because the closing `Invoice.objects.create` omits the
NOT NULL `total_amount` column and its `IntegrityError` lands in the
blanket handler; the invoice table is left unchanged and the earlier
writes all stay. -/
theorem verify_razorpay_payment_valid_eq
    (db : DB) (hmacHex : String → String → String) (keySecret : String)
    (tenantId : Nat) (paymentId orderId signature : String) (now : Int)
    (rnd : Nat → String) (fuel : Nat) (tenant : Tenant) (s0 : String)
    (tx : PaymentTransaction) (planId : Nat)
    (hfind : db.tenants.find? (fun t => t.id == tenantId) = some tenant)
    (hdom : tenant.domain ≠ "") (hslug : tenant.slug = some s0) (hs0 : s0 ≠ "")
    (hu1 : ((db.tenants.filter fun o => !(some tenant.id == some o.id)).any
      (fun o => o.domain == tenant.domain)) = false)
    (hu2 : ((db.tenants.filter fun o => !(some tenant.id == some o.id)).any
      (fun o => o.slug == some s0)) = false)
    (htx : db.transactions.filter (fun x => x.razorpay_order_id == orderId) = [tx])
    (htxt : tx.tenant = some tenantId)
    (hplan : tx.plan = some planId)
    (hvalid : signature = hmacHex keySecret (orderId ++ "|" ++ paymentId)) :
    verify_razorpay_payment db hmacHex keySecret "POST" orderId paymentId
      signature now rnd fuel =
    (⟨false, some "error", none, none⟩,
      { db with
        tenants := db.tenants.map fun o =>
          if o.id == tenant.id then
            activatedTenantVP tenant planId now (vrpEndDay tx now)
          else o,
        transactions := db.transactions.map fun x =>
          if x.id == tx.id then
            { tx with
              razorpay_payment_id := some paymentId,
              razorpay_signature := some signature, status := "paid" }
          else x,
        subscriptions := (db.subscriptions.map fun s =>
          if s.tenant == tenantId && s.status == "active" then
            { s with status := "expired" }
          else s) ++ [vrpNewSub db tx tenantId planId now] }) := by
  simp only [verify_razorpay_payment]
  rw [if_neg (by simp)]
  rw [if_neg (show ¬(hmacHex keySecret (orderId ++ "|" ++ paymentId) ≠ signature)
    from fun h => h hvalid.symm)]
  rw [htx]
  dsimp only [djangoGetSingle]
  rw [htxt]
  dsimp only
  rw [hfind]
  dsimp only
  rw [hplan]
  dsimp only
  have hsave := tenantSave_keep
    { db with
      transactions := db.transactions.map fun x =>
        if x.id == tx.id then
          { tx with
            razorpay_payment_id := some paymentId,
            razorpay_signature := some signature, status := "paid" }
        else x,
      subscriptions := (db.subscriptions.map fun s =>
        if s.tenant == tenantId && s.status == "active" then
          { s with status := "expired" }
        else s) ++ [vrpNewSub db tx tenantId planId now] }
    tenant.id (activatedTenantVP tenant planId now (vrpEndDay tx now)) rnd fuel
    s0 hdom hslug hs0 hu1 hu2
  dsimp only [vrpNewSub, vrpEndDay, nextSubscriptionId, activatedTenantVP,
    nextInvoiceId] at hsave
  rw [htxt, hplan] at hsave
  dsimp only [vrpNewSub, vrpEndDay, nextSubscriptionId, activatedTenantVP,
    nextInvoiceId]
  rw [hsave]
  rfl

/-- C4: on POST requests to the two payment-verification endpoints, the
tenant is activated (status `'active'`, subscription dates written) exactly
when the submitted signature equals
`hmac_sha256_hex(RAZORPAY_KEY_SECRET, "order_id|payment_id")`; with a
differing signature both endpoints answer `success=False` and return the
database exactly as it was.  On the matching-signature side,
`razorpay_verify` also answers success, while `verify_razorpay_payment`
activates the tenant but answers `success=False` all the same: its closing
invoice insert omits the NOT NULL `total_amount` column, raises
`IntegrityError`, and the handler reports failure with the activation
already persisted.  The hypotheses pin down the referenced rows: the
tenant exists with its stored (non-empty, unique) domain and slug, and the
unique `PaymentTransaction` for the order exists carrying the tenant and
plan. -/
theorem C4_signature_gates_activation
    (db : DB) (hmacHex : String → String → String) (keySecret : String)
    (tenantId : Nat) (paymentId orderId signature : String) (now : Int)
    (rnd : Nat → String) (fuel : Nat) (tenant : Tenant) (s0 : String)
    (tx : PaymentTransaction) (planId : Nat)
    (hfind : db.tenants.find? (fun t => t.id == tenantId) = some tenant)
    (hdom : tenant.domain ≠ "") (hslug : tenant.slug = some s0) (hs0 : s0 ≠ "")
    (hu1 : ((db.tenants.filter fun o => !(some tenant.id == some o.id)).any
      (fun o => o.domain == tenant.domain)) = false)
    (hu2 : ((db.tenants.filter fun o => !(some tenant.id == some o.id)).any
      (fun o => o.slug == some s0)) = false)
    (htxf : db.transactions.find? (fun x => x.razorpay_order_id == orderId) = some tx)
    (htx : db.transactions.filter (fun x => x.razorpay_order_id == orderId) = [tx])
    (htxt : tx.tenant = some tenantId)
    (hplan : tx.plan = some planId) :
    (signature = hmacHex keySecret (orderId ++ "|" ++ paymentId) →
      (∃ db', razorpay_verify db hmacHex keySecret "POST" tenantId paymentId
          orderId signature now rnd fuel =
        .ok (⟨true, none,
          some ("/tenant/success/?tenant=" ++ toString tenant.id), none⟩, db') ∧
        ∃ t', t' ∈ db'.tenants ∧ t'.id = tenant.id ∧ t'.status = "active" ∧
          t'.subscription_start_date = some now ∧
          t'.subscription_end_date = some (now + 30 * 86400)) ∧
      (∃ resp db', verify_razorpay_payment db hmacHex keySecret "POST" orderId
          paymentId signature now rnd fuel = (resp, db') ∧
        resp.success = false ∧
        ∃ t', t' ∈ db'.tenants ∧ t'.id = tenant.id ∧ t'.status = "active" ∧
          t'.subscription_start_date = some now)) ∧
    (signature ≠ hmacHex keySecret (orderId ++ "|" ++ paymentId) →
      razorpay_verify db hmacHex keySecret "POST" tenantId paymentId orderId
        signature now rnd fuel =
        .ok (⟨false, some "Payment verification failed.", none, none⟩, db) ∧
      verify_razorpay_payment db hmacHex keySecret "POST" orderId paymentId
        signature now rnd fuel =
        (⟨false, some "Invalid signature", none, none⟩, db)) := by
  constructor
  · intro hvalid
    constructor
    · refine ⟨_, razorpay_verify_valid_eq db hmacHex keySecret tenantId paymentId
        orderId signature now rnd fuel tenant s0 tx planId hfind hdom hslug hs0
        hu1 hu2 htxf hplan hvalid, ?_⟩
      refine ⟨activatedTenantRV tenant paymentId orderId now, ?_, rfl, rfl, rfl, rfl⟩
      dsimp only
      refine List.mem_map.mpr ⟨tenant, List.mem_of_find?_eq_some hfind, ?_⟩
      simp
    · refine ⟨_, _, verify_razorpay_payment_valid_eq db hmacHex keySecret
        tenantId paymentId orderId signature now rnd fuel tenant s0 tx planId
        hfind hdom hslug hs0 hu1 hu2 htx htxt hplan hvalid, rfl, ?_⟩
      refine ⟨activatedTenantVP tenant planId now (vrpEndDay tx now), ?_, rfl, rfl, rfl⟩
      dsimp only
      refine List.mem_map.mpr ⟨tenant, List.mem_of_find?_eq_some hfind, ?_⟩
      simp
  · intro hne
    constructor
    · simp only [razorpay_verify]
      rw [if_neg (by simp)]
      rw [hfind]
      dsimp only
      rw [if_neg (fun h => hne h.symm)]
    · simp only [verify_razorpay_payment]
      rw [if_neg (by simp)]
      rw [if_pos (fun h => hne h.symm)]

/-- C8: after every `verify_razorpay_payment` run that is successful in the
claim's sense — valid signature and existing transaction (with its tenant
and plan resolvable) — the transaction's tenant has exactly one `'active'`
`Subscription` row in the resulting database, namely the newly inserted
one: every previously active row of that tenant is flipped to `'expired'`
before the insert.  (The run's JSON response is nonetheless
`success=False`, because the subsequent invoice insert omits the NOT NULL
`total_amount` column and raises after the subscription writes are already
in place.) -/
theorem C8_single_active_subscription
    (db : DB) (hmacHex : String → String → String) (keySecret : String)
    (tenantId : Nat) (paymentId orderId signature : String) (now : Int)
    (rnd : Nat → String) (fuel : Nat) (tenant : Tenant) (s0 : String)
    (tx : PaymentTransaction) (planId : Nat)
    (hfind : db.tenants.find? (fun t => t.id == tenantId) = some tenant)
    (hdom : tenant.domain ≠ "") (hslug : tenant.slug = some s0) (hs0 : s0 ≠ "")
    (hu1 : ((db.tenants.filter fun o => !(some tenant.id == some o.id)).any
      (fun o => o.domain == tenant.domain)) = false)
    (hu2 : ((db.tenants.filter fun o => !(some tenant.id == some o.id)).any
      (fun o => o.slug == some s0)) = false)
    (htx : db.transactions.filter (fun x => x.razorpay_order_id == orderId) = [tx])
    (htxt : tx.tenant = some tenantId)
    (hplan : tx.plan = some planId)
    (hvalid : signature = hmacHex keySecret (orderId ++ "|" ++ paymentId)) :
    ∃ resp db' ns,
      verify_razorpay_payment db hmacHex keySecret "POST" orderId paymentId
        signature now rnd fuel = (resp, db') ∧
      ns.tenant = tenantId ∧ ns.status = "active" ∧
      db'.subscriptions =
        (db.subscriptions.map fun s =>
          if s.tenant == tenantId && s.status == "active" then
            { s with status := "expired" }
          else s) ++ [ns] ∧
      db'.subscriptions.filter
        (fun s => s.tenant == tenantId && s.status == "active") = [ns] := by
  refine ⟨_, _, vrpNewSub db tx tenantId planId now,
    verify_razorpay_payment_valid_eq db hmacHex keySecret tenantId paymentId
      orderId signature now rnd fuel tenant s0 tx planId hfind hdom hslug hs0
      hu1 hu2 htx htxt hplan hvalid, rfl, rfl, rfl, ?_⟩
  dsimp only
  rw [List.filter_append]
  have h1 : (db.subscriptions.map fun s =>
      if s.tenant == tenantId && s.status == "active" then
        { s with status := "expired" }
      else s).filter (fun s => s.tenant == tenantId && s.status == "active") = [] := by
    rw [List.filter_eq_nil_iff]
    intro a ha
    rcases List.mem_map.mp ha with ⟨s, hs, rfl⟩
    by_cases hc : (s.tenant == tenantId && s.status == "active") = true
    · simp [hc]
    · simp only [hc, if_false]
      simp at hc ⊢
      exact hc
  have h2 : [vrpNewSub db tx tenantId planId now].filter
      (fun s => s.tenant == tenantId && s.status == "active") =
      [vrpNewSub db tx tenantId planId now] := by
    simp [vrpNewSub]
  rw [h1, h2]
  rfl

/-- Toy stand-in for the HMAC-SHA256 hex primitive in witnesses. -/
def hmacToy : String → String → String := fun k m => k ++ ":" ++ m

/-- A created transaction for order `ord1` of tenant 1 on plan 1. -/
def txA : PaymentTransaction :=
  { id := 9, tenant := some 1, plan := some 1, razorpay_order_id := "ord1",
    razorpay_payment_id := none, razorpay_signature := none,
    amount := 999/100, currency := "INR", billing_cycle := "monthly",
    status := "created", created_at := 0 }

/-- Payment-flow witness database: tenant 1, plan 1, one stale active
billing subscription, and the created transaction. -/
def dbPay : DB :=
  { tenants := [sampleTenantA], plans := [samplePlan], companySubs := [],
    subscriptions := [expiringSubscription], transactions := [txA],
    invoices := [], permissions := [], rolePerms := [], roles := [] }

/-- Witness for C4 at the concrete payment state. -/
theorem C4_signature_gates_activation_witness :
    ("s1" = hmacToy "sek" ("ord1" ++ "|" ++ "pay1") →
      (∃ db', razorpay_verify dbPay hmacToy "sek" "POST" 1 "pay1" "ord1" "s1"
          86400 rndConst 5 =
        .ok (⟨true, none,
          some ("/tenant/success/?tenant=" ++ toString sampleTenantA.id), none⟩, db') ∧
        ∃ t', t' ∈ db'.tenants ∧ t'.id = sampleTenantA.id ∧ t'.status = "active" ∧
          t'.subscription_start_date = some 86400 ∧
          t'.subscription_end_date = some (86400 + 30 * 86400)) ∧
      (∃ resp db', verify_razorpay_payment dbPay hmacToy "sek" "POST" "ord1"
          "pay1" "s1" 86400 rndConst 5 = (resp, db') ∧
        resp.success = false ∧
        ∃ t', t' ∈ db'.tenants ∧ t'.id = sampleTenantA.id ∧ t'.status = "active" ∧
          t'.subscription_start_date = some 86400)) ∧
    ("s1" ≠ hmacToy "sek" ("ord1" ++ "|" ++ "pay1") →
      razorpay_verify dbPay hmacToy "sek" "POST" 1 "pay1" "ord1" "s1" 86400
        rndConst 5 =
        .ok (⟨false, some "Payment verification failed.", none, none⟩, dbPay) ∧
      verify_razorpay_payment dbPay hmacToy "sek" "POST" "ord1" "pay1" "s1"
        86400 rndConst 5 =
        (⟨false, some "Invalid signature", none, none⟩, dbPay)) :=
  C4_signature_gates_activation dbPay hmacToy "sek" 1 "pay1" "ord1" "s1" 86400
    rndConst 5 sampleTenantA "acme" txA 1 rfl (by decide) rfl (by decide) rfl
    rfl rfl rfl rfl rfl

/-- Witness for C8 at the concrete payment state with a valid signature. -/
theorem C8_single_active_subscription_witness :
    ∃ resp db' ns,
      verify_razorpay_payment dbPay hmacToy "sek" "POST" "ord1" "pay1"
        (hmacToy "sek" ("ord1" ++ "|" ++ "pay1")) 86400 rndConst 5 = (resp, db') ∧
      ns.tenant = 1 ∧ ns.status = "active" ∧
      db'.subscriptions =
        (dbPay.subscriptions.map fun s =>
          if s.tenant == 1 && s.status == "active" then
            { s with status := "expired" }
          else s) ++ [ns] ∧
      db'.subscriptions.filter
        (fun s => s.tenant == 1 && s.status == "active") = [ns] :=
  C8_single_active_subscription dbPay hmacToy "sek" 1 "pay1" "ord1"
    (hmacToy "sek" ("ord1" ++ "|" ++ "pay1")) 86400 rndConst 5 sampleTenantA
    "acme" txA 1 rfl (by decide) rfl (by decide) rfl rfl rfl rfl rfl rfl
